import Mathlib

/-!
Shallow embedding of src/app/static/js/ai-features.js.

The script wires DOM event handlers: a mark-news-read click handler doing a
POST fetch, an unread-count refresher doing a GET fetch, checklist checkbox
persistence in localStorage, and a progress-bar recomputation
(updateChecklistProgress).  JavaScript numbers are modelled as rationals
(every division here is exact in the scenarios of interest), DOM classLists
as lists of strings with classList.add and classList.remove semantics, and
localStorage as a partial map from strings to strings.
-/

namespace AiFeatures

/-- DOM classList.add: appends the class unless already present. -/
def classAdd (l : List String) (c : String) : List String :=
  if c ∈ l then l else l ++ [c]

/-- DOM classList.remove: deletes every occurrence of the class. -/
def classRemove (l : List String) (c : String) : List String :=
  l.filter (fun x => x ≠ c)

/-- response.ok in the Fetch API: status in the range 200..299. -/
def responseOk (status : Nat) : Bool :=
  decide (200 ≤ status) && decide (status ≤ 299)

/-- JavaScript Math.round: floor of x + 1/2. -/
def jsRound (q : ℚ) : ℤ := ⌊q + 1 / 2⌋

/-- One checkbox input with class checklist-item: its data-item-id,
its data-required attribute, and its checked state. -/
structure ChecklistItem where
  itemId : String
  required : Bool
  checked : Bool
deriving DecidableEq

/-- The progress-bar element of a checklist card. widthPct is the numeric
percentage interpolated into style.width; labelPct the rounded numeric
percentage interpolated into textContent; classes the classList. -/
structure ProgressBar where
  widthPct : ℚ
  labelPct : ℤ
  classes : List String
deriving DecidableEq

/-- A checklist-card element: data-checklist-id, its checklist items,
and its progress bar when one exists in the card. -/
structure ChecklistCard where
  checklistId : String
  items : List ChecklistItem
  progressBar : Option ProgressBar
deriving DecidableEq

/-- querySelectorAll of checklist items with data-required="true". -/
def requiredItems (card : ChecklistCard) : List ChecklistItem :=
  card.items.filter (fun i => i.required)

/-- items.length in updateChecklistProgress. -/
def totalItems (card : ChecklistCard) : Nat :=
  card.items.length

/-- Array.from(items).filter(item => item.checked).length. -/
def checkedItems (card : ChecklistCard) : Nat :=
  (card.items.filter (fun i => i.checked)).length

/-- requiredItems.length in updateChecklistProgress. -/
def totalRequired (card : ChecklistCard) : Nat :=
  (requiredItems card).length

/-- Array.from(requiredItems).filter(item => item.checked).length. -/
def checkedRequired (card : ChecklistCard) : Nat :=
  ((requiredItems card).filter (fun i => i.checked)).length

/-- const progress = (checkedItems / totalItems) * 100. -/
def overallProgress (card : ChecklistCard) : ℚ :=
  ((checkedItems card : ℚ) / (totalItems card : ℚ)) * 100

/-- const requiredProgress = totalRequired > 0
      ? (checkedRequired / totalRequired) * 100 : 100. -/
def requiredProgress (card : ChecklistCard) : ℚ :=
  if 0 < totalRequired card then
    ((checkedRequired card : ℚ) / (totalRequired card : ℚ)) * 100
  else 100

/-- The three-branch color update on the progress bar classList:
if requiredProgress === 100 remove bg-warning and bg-danger, add bg-success;
else if requiredProgress >= 50 remove bg-success and bg-danger, add
bg-warning; else remove bg-success and bg-warning, add bg-danger. -/
def setTierClasses (classes : List String) (rp : ℚ) : List String :=
  if rp = 100 then
    classAdd (classRemove (classRemove classes "bg-warning") "bg-danger") "bg-success"
  else if 50 ≤ rp then
    classAdd (classRemove (classRemove classes "bg-success") "bg-danger") "bg-warning"
  else
    classAdd (classRemove (classRemove classes "bg-success") "bg-warning") "bg-danger"

/-- updateChecklistProgress(checklistId), acting on the card it selects:
computes the counts and percentages and, when a progress-bar element exists,
sets style.width to the progress percentage, textContent to
Math.round(progress), and updates the color classes from requiredProgress.
When no progress bar exists the guard `if (progressBar)` skips every
mutation. -/
def updateChecklistProgress (card : ChecklistCard) : ChecklistCard :=
  let progress := overallProgress card
  let rp := requiredProgress card
  match card.progressBar with
  | none => card
  | some pb =>
      { card with progressBar := some (
          { widthPct := progress
          , labelPct := jsRound progress
          , classes := setTierClasses pb.classes rp } : ProgressBar) }

/-- Outcome of the mark-read fetch: either the promise rejects (network
error, caught by the try/catch) or a response with some HTTP status
arrives; the response body is ignored by the handler. -/
inductive FetchOutcome where
  | rejected
  | response (status : Nat)
deriving DecidableEq

/-- The DOM fragment the mark-read click handler touches: whether the
enclosing news-item element is still in the document, its classList, and
whether the mark-news-read button itself is still in the document. -/
structure MarkReadDom where
  newsItemPresent : Bool
  newsItemClasses : List String
  buttonPresent : Bool
deriving DecidableEq

/-- State seen by the mark-read click handler: the DOM fragment, the
console.error log, and whether updateUnreadCount was invoked. -/
structure MarkReadState where
  dom : MarkReadDom
  log : List String
  refreshTriggered : Bool
deriving DecidableEq

/-- The mark-news-read click handler: awaits the POST fetch; on a rejected
promise the catch block logs to console.error; on a response, if
response.ok it adds opacity-50 to the closest news-item element, removes
the button (this.remove()), and calls updateUnreadCount; a response with
response.ok false falls through with no action and no logging. -/
def markReadHandler (st : MarkReadState) (outcome : FetchOutcome) : MarkReadState :=
  match outcome with
  | .rejected => { st with log := st.log ++ ["Error marking news as read:"] }
  | .response status =>
      if responseOk status then
        { st with
          dom := { st.dom with
            newsItemClasses := classAdd st.dom.newsItemClasses "opacity-50"
            buttonPresent := false }
          refreshTriggered := true }
      else st

/-- The news-badge element: its textContent and its classList (the d-none
class hides it). -/
structure Badge where
  textContent : String
  classes : List String
deriving DecidableEq

/-- Outcome of the GET fetch in updateUnreadCount: a rejected promise, or a
response with an HTTP status whose parsed JSON body carries the news
array (modelled by the list of news identifiers). -/
inductive UnreadOutcome where
  | rejected
  | response (status : Nat) (news : List Nat)
deriving DecidableEq

/-- State seen by updateUnreadCount: the badge element if one exists in the
document, and the console.error log. -/
structure UnreadState where
  badge : Option Badge
  log : List String
deriving DecidableEq

/-- updateUnreadCount: awaits the GET fetch; a rejected promise is caught
and logged; on response.ok, when the badge element exists, a nonempty news
array sets textContent to the array length and removes d-none, while an
empty array only adds d-none; a response with response.ok false falls
through with no action and no logging. -/
def updateUnreadCount (st : UnreadState) (outcome : UnreadOutcome) : UnreadState :=
  match outcome with
  | .rejected => { st with log := st.log ++ ["Error updating news count:"] }
  | .response status news =>
      if responseOk status then
        match st.badge with
        | none => st
        | some b =>
            if 0 < news.length then
              { st with badge := some (
                  { textContent := toString news.length
                  , classes := classRemove b.classes "d-none" } : Badge) }
            else
              { st with badge := some (
                  { b with classes := classAdd b.classes "d-none" } : Badge) }
      else st

/-- localStorage, modelled as a partial map from keys to string values. -/
def Storage : Type := String → Option String

/-- localStorage.setItem. -/
def setItem (st : Storage) (k v : String) : Storage :=
  fun q => if q = k then some v else st q

/-- localStorage.getItem. -/
def getItem (st : Storage) (k : String) : Option String := st k

/-- The template literal key checklist_ followed by the checklist id, an
underscore, and the item id. -/
def storageKey (checklistId itemId : String) : String :=
  s!"checklist_{checklistId}_{itemId}"

/-- JavaScript string coercion of the boolean passed to setItem. -/
def boolToStorage (b : Bool) : String :=
  if b then "true" else "false"

/-- The storage effect of the checklist-item change handler:
localStorage.setItem(key, isChecked) with the key built from the enclosing
checklist-card data-checklist-id and the item data-item-id. -/
def toggleHandlerStore (st : Storage) (checklistId itemId : String)
    (isChecked : Bool) : Storage :=
  setItem st (storageKey checklistId itemId) (boolToStorage isChecked)

/-- The restoration step for one checkbox: reads the storage key; when a
saved value exists the checked state becomes savedState === "true";
when the key is absent the server-rendered default is kept. -/
def restoreChecked (st : Storage) (checklistId itemId : String)
    (domDefault : Bool) : Bool :=
  match getItem st (storageKey checklistId itemId) with
  | none => domDefault
  | some v => v == "true"

/-! ### ClassList lemmas -/

theorem mem_classAdd {l : List String} {c a : String} :
    a ∈ classAdd l c ↔ a ∈ l ∨ a = c := by
  unfold classAdd
  split
  · rename_i h
    constructor
    · exact Or.inl
    · rintro (h1 | rfl)
      · exact h1
      · exact h
  · simp [List.mem_append]

theorem mem_classRemove {l : List String} {c a : String} :
    a ∈ classRemove l c ↔ a ∈ l ∧ a ≠ c := by
  simp [classRemove, List.mem_filter]

theorem self_mem_classAdd (l : List String) (c : String) :
    c ∈ classAdd l c := by
  rw [mem_classAdd]; exact Or.inr rfl

theorem self_not_mem_classRemove (l : List String) (c : String) :
    c ∉ classRemove l c := by
  rw [mem_classRemove]; rintro ⟨-, h⟩; exact h rfl

/-! ### Tier membership lemmas: after the three-branch color update,
membership of each of the three classes depends only on requiredProgress,
never on the classes the bar carried before. -/

theorem setTier_success_iff (classes : List String) (rp : ℚ) :
    "bg-success" ∈ setTierClasses classes rp ↔ rp = 100 := by
  unfold setTierClasses
  split
  · rename_i h
    simp [mem_classAdd, h]
  · rename_i h
    split <;> simp [mem_classAdd, mem_classRemove, h]

theorem setTier_warning_iff (classes : List String) (rp : ℚ) :
    "bg-warning" ∈ setTierClasses classes rp ↔ rp ≠ 100 ∧ 50 ≤ rp := by
  unfold setTierClasses
  split
  · rename_i h
    subst h
    norm_num [mem_classAdd, mem_classRemove]
    decide
  · rename_i h
    split
    · rename_i h2
      simp [mem_classAdd, h, h2]
    · rename_i h2
      simp [mem_classAdd, mem_classRemove, h, h2]

theorem setTier_danger_iff (classes : List String) (rp : ℚ) :
    "bg-danger" ∈ setTierClasses classes rp ↔ rp < 50 := by
  unfold setTierClasses
  split
  · rename_i h
    subst h
    norm_num [mem_classAdd, mem_classRemove]
    decide
  · rename_i h
    split
    · rename_i h2
      simp [mem_classAdd, mem_classRemove, not_lt.mpr h2]
    · rename_i h2
      simp [mem_classAdd, not_le.mp h2]

/-- checkedRequired never exceeds totalRequired: the checked required items
are a filtration of the required items. -/
theorem checkedRequired_le_totalRequired (card : ChecklistCard) :
    checkedRequired card ≤ totalRequired card :=
  List.length_filter_le _ _

/-- requiredProgress never exceeds 100. -/
theorem requiredProgress_le_100 (card : ChecklistCard) :
    requiredProgress card ≤ 100 := by
  unfold requiredProgress
  split
  · rename_i h
    have hle : (checkedRequired card : ℚ) ≤ (totalRequired card : ℚ) := by
      exact_mod_cast checkedRequired_le_totalRequired card
    have hpos : (0 : ℚ) < (totalRequired card : ℚ) := by exact_mod_cast h
    have h1 : (checkedRequired card : ℚ) / (totalRequired card : ℚ) ≤ 1 :=
      div_le_one_of_le₀ hle (le_of_lt hpos)
    nlinarith
  · exact le_refl _

/-- Unfolding lemma: when the card has a progress bar, the recomputed bar
holds the overall progress, its rounding, and the tier classes computed
from the old classList and requiredProgress. -/
theorem updateChecklistProgress_bar_eq (card : ChecklistCard) (pb : ProgressBar)
    (hpb : card.progressBar = some pb) :
    (updateChecklistProgress card).progressBar =
      some (ProgressBar.mk (overallProgress card) (jsRound (overallProgress card))
        (setTierClasses pb.classes (requiredProgress card))) := by
  simp [updateChecklistProgress, hpb]

/-! ### Sample concrete inputs used by witnesses -/

/-- A sample card with four items, two of them required; one required and
one non-required item are checked (the scenario in section 8 of the spec:
overall 50 percent, required 50 percent, warning tier). -/
def sampleCard : ChecklistCard :=
  { checklistId := "A"
  , items :=
      [ { itemId := "1", required := true, checked := true }
      , { itemId := "2", required := true, checked := false }
      , { itemId := "3", required := false, checked := true }
      , { itemId := "4", required := false, checked := false } ]
  , progressBar := some { widthPct := 0, labelPct := 0, classes := ["progress-bar"] } }

/-- The progress bar of sampleCard after recomputation. -/
def samplePb2 : ProgressBar :=
  { widthPct := 50, labelPct := 50, classes := ["progress-bar", "bg-warning"] }

/-- A card with two items, neither required, one checked. -/
def zeroReqCard : ChecklistCard :=
  { checklistId := "B"
  , items :=
      [ { itemId := "1", required := false, checked := true }
      , { itemId := "2", required := false, checked := false } ]
  , progressBar := some { widthPct := 0, labelPct := 0, classes := [] } }

/-- The progress bar of zeroReqCard after recomputation. -/
def zeroReqPb2 : ProgressBar :=
  { widthPct := 50, labelPct := 50, classes := ["bg-success"] }

/-! ### Claim theorems -/

/-- C7: round trip: toggling a checkbox writes the state to localStorage
under checklist_<checklistId>_<itemId>, and re-running the restoration step
against the same storage restores the same checked state, whatever the
prior storage contents and whatever default the checkbox had. -/
theorem checklist_roundtrip (st : Storage) (checklistId itemId : String)
    (isChecked domDefault : Bool) :
    restoreChecked (toggleHandlerStore st checklistId itemId isChecked)
      checklistId itemId domDefault = isChecked := by
  cases isChecked <;>
    simp [restoreChecked, toggleHandlerStore, setItem, getItem, boolToStorage]

/-- C10: for a card with no progress-bar element, updateChecklistProgress
mutates nothing: the counts and percentages are computed and discarded and
the card is returned unchanged (the function is total, so no exception). -/
theorem updateChecklistProgress_noBar (card : ChecklistCard)
    (h : card.progressBar = none) :
    updateChecklistProgress card = card := by
  simp [updateChecklistProgress, h]

/-- Witness for C10 at a concrete card without a progress bar. -/
theorem updateChecklistProgress_noBar_witness :
    updateChecklistProgress
        { checklistId := "C"
        , items := [{ itemId := "1", required := true, checked := false }]
        , progressBar := none } =
      { checklistId := "C"
      , items := [{ itemId := "1", required := true, checked := false }]
      , progressBar := none } :=
  updateChecklistProgress_noBar _ rfl

/-- C3 counterexample: with one of three items checked, the recomputation
stores the exact percentage 100/3 in the width and the rounded 33 in the
label; the width is not the rounded percentage, refuting the claim that
both width and label are set to the rounded value. -/
theorem c3_width_not_rounded :
    (updateChecklistProgress
      { checklistId := "D"
      , items :=
          [ { itemId := "1", required := false, checked := true }
          , { itemId := "2", required := false, checked := false }
          , { itemId := "3", required := false, checked := false } ]
      , progressBar := some { widthPct := 0, labelPct := 0, classes := [] } }).progressBar =
      some { widthPct := 100 / 3, labelPct := 33, classes := ["bg-success"] } ∧
    ¬((100 : ℚ) / 3 = ((33 : ℤ) : ℚ)) := by
  constructor
  · norm_num [updateChecklistProgress, overallProgress, requiredProgress, checkedItems,
      totalItems, checkedRequired, totalRequired, requiredItems, jsRound, setTierClasses,
      classAdd, classRemove]
  · norm_num

/-- C3 amended: after recomputation the width is set to the exact overall
percentage while the label text is set to the rounded overall percentage
(and the classes to the tier computed from requiredProgress). -/
theorem updateChecklistProgress_sets_width_and_label (card : ChecklistCard)
    (pb : ProgressBar) (hpb : card.progressBar = some pb) :
    (updateChecklistProgress card).progressBar = some (
      { widthPct := overallProgress card
      , labelPct := round (overallProgress card)
      , classes := setTierClasses pb.classes (requiredProgress card) } : ProgressBar) := by
  simp [updateChecklistProgress, hpb, jsRound, round_eq]

/-- Witness for the amended C3 at sampleCard. -/
theorem updateChecklistProgress_sets_width_and_label_witness :
    (updateChecklistProgress sampleCard).progressBar = some (
      { widthPct := overallProgress sampleCard
      , labelPct := round (overallProgress sampleCard)
      , classes := setTierClasses ["progress-bar"] (requiredProgress sampleCard) } : ProgressBar) :=
  updateChecklistProgress_sets_width_and_label sampleCard
    { widthPct := 0, labelPct := 0, classes := ["progress-bar"] } rfl

/-- C5: for a card with zero required items, requiredProgress is 100 and
the recomputed tier is success, whatever the items checked states. -/
theorem zeroRequired_success (card : ChecklistCard) (pb pb2 : ProgressBar)
    (hpb : card.progressBar = some pb)
    (hreq : totalRequired card = 0)
    (hpb2 : (updateChecklistProgress card).progressBar = some pb2) :
    requiredProgress card = 100 ∧
    "bg-success" ∈ pb2.classes ∧
    "bg-warning" ∉ pb2.classes ∧
    "bg-danger" ∉ pb2.classes := by
  have hrp : requiredProgress card = 100 := by
    unfold requiredProgress
    rw [if_neg (by omega)]
  rw [updateChecklistProgress_bar_eq card pb hpb] at hpb2
  injection hpb2 with h2
  subst h2
  refine ⟨hrp, ?_, ?_, ?_⟩
  · exact (setTier_success_iff pb.classes _).mpr hrp
  · rw [setTier_warning_iff]
    rintro ⟨hne, -⟩
    exact hne hrp
  · rw [setTier_danger_iff, hrp]
    norm_num

/-- Witness for C5 at zeroReqCard. -/
theorem zeroRequired_success_witness :
    requiredProgress zeroReqCard = 100 ∧
    "bg-success" ∈ zeroReqPb2.classes ∧
    "bg-warning" ∉ zeroReqPb2.classes ∧
    "bg-danger" ∉ zeroReqPb2.classes :=
  zeroRequired_success zeroReqCard
    { widthPct := 0, labelPct := 0, classes := [] } zeroReqPb2
    rfl (by decide)
    (by norm_num [updateChecklistProgress, overallProgress, requiredProgress, checkedItems,
      totalItems, checkedRequired, totalRequired, requiredItems, jsRound, setTierClasses,
      classAdd, classRemove, zeroReqCard, zeroReqPb2])

/-- C6: for a card with at least one item, the label percentage after
recomputation is the rounding of checked over total times 100. -/
theorem label_is_rounded_percentage (card : ChecklistCard) (pb pb2 : ProgressBar)
    (hpb : card.progressBar = some pb)
    (htot : 0 < totalItems card)
    (hpb2 : (updateChecklistProgress card).progressBar = some pb2) :
    pb2.labelPct = round ((checkedItems card : ℚ) / (totalItems card : ℚ) * 100) := by
  rw [updateChecklistProgress_bar_eq card pb hpb] at hpb2
  injection hpb2 with h2
  subst h2
  show jsRound (overallProgress card) = _
  rw [round_eq]
  rfl

/-- Witness for C6 at sampleCard. -/
theorem label_is_rounded_percentage_witness :
    samplePb2.labelPct =
      round ((checkedItems sampleCard : ℚ) / (totalItems sampleCard : ℚ) * 100) :=
  label_is_rounded_percentage sampleCard
    { widthPct := 0, labelPct := 0, classes := ["progress-bar"] } samplePb2
    rfl (by decide)
    (by norm_num [updateChecklistProgress, overallProgress, requiredProgress, checkedItems,
      totalItems, checkedRequired, totalRequired, requiredItems, jsRound, setTierClasses,
      classAdd, classRemove, sampleCard, samplePb2]
        <;> decide)

/-- C4: for a card with at least one required item, the recomputed tier is
success iff requiredProgress = 100, warning iff 50 ≤ requiredProgress < 100,
danger iff requiredProgress < 50, with requiredProgress the quotient
checkedRequired over totalRequired times 100. -/
theorem tier_iff_requiredProgress (card : ChecklistCard) (pb pb2 : ProgressBar)
    (hpb : card.progressBar = some pb)
    (hreq : 0 < totalRequired card)
    (hpb2 : (updateChecklistProgress card).progressBar = some pb2) :
    requiredProgress card =
        (checkedRequired card : ℚ) / (totalRequired card : ℚ) * 100 ∧
    ("bg-success" ∈ pb2.classes ↔ requiredProgress card = 100) ∧
    ("bg-warning" ∈ pb2.classes ↔
        50 ≤ requiredProgress card ∧ requiredProgress card < 100) ∧
    ("bg-danger" ∈ pb2.classes ↔ requiredProgress card < 50) := by
  rw [updateChecklistProgress_bar_eq card pb hpb] at hpb2
  injection hpb2 with h2
  subst h2
  have h100 := requiredProgress_le_100 card
  refine ⟨?_, ?_, ?_, ?_⟩
  · unfold requiredProgress
    rw [if_pos hreq]
  · exact setTier_success_iff pb.classes _
  · rw [setTier_warning_iff]
    constructor
    · rintro ⟨hne, h50⟩
      exact ⟨h50, lt_of_le_of_ne h100 hne⟩
    · rintro ⟨h50, hlt⟩
      exact ⟨ne_of_lt hlt, h50⟩
  · exact setTier_danger_iff pb.classes _

/-- Witness for C4 at sampleCard (two required items, one checked). -/
theorem tier_iff_requiredProgress_witness :
    requiredProgress sampleCard =
        (checkedRequired sampleCard : ℚ) / (totalRequired sampleCard : ℚ) * 100 ∧
    ("bg-success" ∈ samplePb2.classes ↔ requiredProgress sampleCard = 100) ∧
    ("bg-warning" ∈ samplePb2.classes ↔
        50 ≤ requiredProgress sampleCard ∧ requiredProgress sampleCard < 100) ∧
    ("bg-danger" ∈ samplePb2.classes ↔ requiredProgress sampleCard < 50) :=
  tier_iff_requiredProgress sampleCard
    { widthPct := 0, labelPct := 0, classes := ["progress-bar"] } samplePb2
    rfl (by decide)
    (by norm_num [updateChecklistProgress, overallProgress, requiredProgress, checkedItems,
      totalItems, checkedRequired, totalRequired, requiredItems, jsRound, setTierClasses,
      classAdd, classRemove, sampleCard, samplePb2]
        <;> decide)

/-- C8: after recomputation, exactly one of the three tier classes is on
the progress bar, whatever classes it carried before. -/
theorem exactly_one_tier (card : ChecklistCard) (pb pb2 : ProgressBar)
    (hpb : card.progressBar = some pb)
    (hpb2 : (updateChecklistProgress card).progressBar = some pb2) :
    ("bg-success" ∈ pb2.classes ∧ "bg-warning" ∉ pb2.classes ∧
        "bg-danger" ∉ pb2.classes) ∨
    ("bg-success" ∉ pb2.classes ∧ "bg-warning" ∈ pb2.classes ∧
        "bg-danger" ∉ pb2.classes) ∨
    ("bg-success" ∉ pb2.classes ∧ "bg-warning" ∉ pb2.classes ∧
        "bg-danger" ∈ pb2.classes) := by
  rw [updateChecklistProgress_bar_eq card pb hpb] at hpb2
  injection hpb2 with h2
  subst h2
  rw [setTier_success_iff, setTier_warning_iff, setTier_danger_iff]
  by_cases h1 : requiredProgress card = 100
  · left
    rw [h1]
    norm_num
  · by_cases h2 : 50 ≤ requiredProgress card
    · right; left
      exact ⟨h1, ⟨h1, h2⟩, not_lt.mpr h2⟩
    · right; right
      refine ⟨h1, ?_, not_le.mp h2⟩
      rintro ⟨-, h50⟩
      exact h2 h50
  
/-- Witness for C8 at sampleCard. -/
theorem exactly_one_tier_witness :
    ("bg-success" ∈ samplePb2.classes ∧ "bg-warning" ∉ samplePb2.classes ∧
        "bg-danger" ∉ samplePb2.classes) ∨
    ("bg-success" ∉ samplePb2.classes ∧ "bg-warning" ∈ samplePb2.classes ∧
        "bg-danger" ∉ samplePb2.classes) ∨
    ("bg-success" ∉ samplePb2.classes ∧ "bg-warning" ∉ samplePb2.classes ∧
        "bg-danger" ∈ samplePb2.classes) :=
  exactly_one_tier sampleCard
    { widthPct := 0, labelPct := 0, classes := ["progress-bar"] } samplePb2
    rfl
    (by norm_num [updateChecklistProgress, overallProgress, requiredProgress, checkedItems,
      totalItems, checkedRequired, totalRequired, requiredItems, jsRound, setTierClasses,
      classAdd, classRemove, sampleCard, samplePb2]
        <;> decide)

/-- The initial DOM fragment used by the news witnesses: the news item and
the mark-read button are both in the document. -/
def markReadStart : MarkReadState :=
  { dom := { newsItemPresent := true, newsItemClasses := [], buttonPresent := true }
  , log := []
  , refreshTriggered := false }

/-- C1 counterexample: on a 200 response the handler leaves the news-item
element in the document (it only fades it and removes the button),
refuting the claim that the news item DOM element is removed. -/
theorem markRead_item_not_removed :
    responseOk 200 = true ∧
    markReadStart.dom.newsItemPresent = true ∧
    (markReadHandler markReadStart (FetchOutcome.response 200)).dom.newsItemPresent
      = true := by
  decide

/-- C1 amended: on any HTTP success status, the handler adds the fade class
opacity-50 to the news-item element, which itself stays in the document,
removes the mark-read button element, and triggers the unread-count
refresh. -/
theorem markRead_success_fades_and_removes_button (st : MarkReadState) (status : Nat)
    (hok : responseOk status = true) :
    markReadHandler st (FetchOutcome.response status) =
      { st with
        dom := { st.dom with
          newsItemClasses := classAdd st.dom.newsItemClasses "opacity-50"
          buttonPresent := false }
        refreshTriggered := true } ∧
    "opacity-50" ∈
      (markReadHandler st (FetchOutcome.response status)).dom.newsItemClasses ∧
    (markReadHandler st (FetchOutcome.response status)).dom.newsItemPresent =
      st.dom.newsItemPresent ∧
    (markReadHandler st (FetchOutcome.response status)).dom.buttonPresent = false ∧
    (markReadHandler st (FetchOutcome.response status)).refreshTriggered = true := by
  have h : markReadHandler st (FetchOutcome.response status) =
      { st with
        dom := { st.dom with
          newsItemClasses := classAdd st.dom.newsItemClasses "opacity-50"
          buttonPresent := false }
        refreshTriggered := true } := by
    simp [markReadHandler, hok]
  rw [h]
  exact ⟨rfl, self_mem_classAdd _ _, rfl, rfl, rfl⟩

/-- Witness for the amended C1 at status 200. -/
theorem markRead_success_fades_and_removes_button_witness :
    markReadHandler markReadStart (FetchOutcome.response 200) =
      { markReadStart with
        dom := { markReadStart.dom with
          newsItemClasses := classAdd markReadStart.dom.newsItemClasses "opacity-50"
          buttonPresent := false }
        refreshTriggered := true } ∧
    "opacity-50" ∈
      (markReadHandler markReadStart (FetchOutcome.response 200)).dom.newsItemClasses ∧
    (markReadHandler markReadStart (FetchOutcome.response 200)).dom.newsItemPresent =
      markReadStart.dom.newsItemPresent ∧
    (markReadHandler markReadStart (FetchOutcome.response 200)).dom.buttonPresent
      = false ∧
    (markReadHandler markReadStart (FetchOutcome.response 200)).refreshTriggered
      = true :=
  markRead_success_fades_and_removes_button markReadStart 200 (by decide)

/-- C2 counterexample: a 500 response is a non-2xx failure, yet neither the
mark-read handler nor updateUnreadCount logs anything for it, refuting the
claim that every failure is logged to the diagnostic channel. -/
theorem non2xx_not_logged :
    responseOk 500 = false ∧
    (markReadHandler markReadStart (FetchOutcome.response 500)).log = [] ∧
    (updateUnreadCount { badge := some { textContent := "", classes := [] }, log := [] }
      (UnreadOutcome.response 500 [1])).log = [] := by
  decide

/-- C2 amended: a rejected promise is caught and logged to console.error
while a non-2xx response is silently ignored without logging; in both
cases the DOM is left unchanged and, the handlers issuing a single fetch
each, there is no retry and no user-visible error. -/
theorem failures_swallowed (st : MarkReadState) (ust : UnreadState)
    (status : Nat) (news : List Nat)
    (hfail : responseOk status = false) :
    (markReadHandler st FetchOutcome.rejected).dom = st.dom ∧
    (markReadHandler st FetchOutcome.rejected).log =
        st.log ++ ["Error marking news as read:"] ∧
    markReadHandler st (FetchOutcome.response status) = st ∧
    (updateUnreadCount ust UnreadOutcome.rejected).badge = ust.badge ∧
    (updateUnreadCount ust UnreadOutcome.rejected).log =
        ust.log ++ ["Error updating news count:"] ∧
    updateUnreadCount ust (UnreadOutcome.response status news) = ust := by
  refine ⟨rfl, rfl, ?_, rfl, rfl, ?_⟩
  · simp [markReadHandler, hfail]
  · simp [updateUnreadCount, hfail]

/-- Witness for the amended C2 at status 500. -/
theorem failures_swallowed_witness :
    (markReadHandler markReadStart FetchOutcome.rejected).dom = markReadStart.dom ∧
    (markReadHandler markReadStart FetchOutcome.rejected).log =
        markReadStart.log ++ ["Error marking news as read:"] ∧
    markReadHandler markReadStart (FetchOutcome.response 500) = markReadStart ∧
    (updateUnreadCount { badge := none, log := [] } UnreadOutcome.rejected).badge =
        (({ badge := none, log := [] } : UnreadState)).badge ∧
    (updateUnreadCount { badge := none, log := [] } UnreadOutcome.rejected).log =
        (({ badge := none, log := [] } : UnreadState)).log ++
          ["Error updating news count:"] ∧
    updateUnreadCount { badge := none, log := [] } (UnreadOutcome.response 500 []) =
      { badge := none, log := [] } :=
  failures_swallowed markReadStart { badge := none, log := [] } 500 [] (by decide)

/-- C9 counterexample: on a 200 response with an empty news array, the
badge is hidden but its text is left at its prior value "5" rather than
set to the array length 0, refuting the claim that the text is set to the
length on every successful refresh. -/
theorem badge_text_not_set_when_empty :
    updateUnreadCount
        { badge := some { textContent := "5", classes := [] }, log := [] }
        (UnreadOutcome.response 200 []) =
      { badge := some { textContent := "5", classes := ["d-none"] }, log := [] } ∧
    ("5" : String) ≠ "0" := by
  decide

/-- C9 amended: on a successful refresh with a badge element present, a
nonempty news array sets the badge text to the array length and removes
the hiding class d-none, while an empty array adds d-none leaving the text
unchanged; removal and addition make the badge visible iff the length is
positive. -/
theorem unreadCount_success_updates_badge (b : Badge) (lg : List String)
    (status : Nat) (news : List Nat)
    (hok : responseOk status = true) :
    updateUnreadCount { badge := some b, log := lg }
        (UnreadOutcome.response status news) =
      { badge := some (if 0 < news.length then
          ({ textContent := toString news.length
           , classes := classRemove b.classes "d-none" } : Badge)
        else ({ b with classes := classAdd b.classes "d-none" } : Badge))
      , log := lg } ∧
    "d-none" ∉ classRemove b.classes "d-none" ∧
    "d-none" ∈ classAdd b.classes "d-none" := by
  refine ⟨?_, self_not_mem_classRemove _ _, self_mem_classAdd _ _⟩
  simp only [updateUnreadCount, hok, if_true]
  split <;> rfl

/-- Witness for the amended C9: status 200 with a two-element news array. -/
theorem unreadCount_success_updates_badge_witness :
    updateUnreadCount
        { badge := some { textContent := "", classes := ["badge"] }, log := [] }
        (UnreadOutcome.response 200 [7, 8]) =
      { badge := some (if 0 < ([7, 8] : List Nat).length then
          ({ textContent := toString ([7, 8] : List Nat).length
           , classes := classRemove ["badge"] "d-none" } : Badge)
        else ({ textContent := "", classes := classAdd ["badge"] "d-none" } : Badge))
      , log := [] } ∧
    "d-none" ∉ classRemove ["badge"] "d-none" ∧
    "d-none" ∈ classAdd ["badge"] "d-none" :=
  unreadCount_success_updates_badge
    { textContent := "", classes := ["badge"] } [] 200 [7, 8] (by decide)

end AiFeatures
